import Mathlib

/-!
Shallow embedding of `src/PsfLauncher/main.cpp` (the PSF launcher).

Wide strings (`wchar_t*` / `std::wstring` / `iwstring_view`) are modelled as
`List Char`.  `std::filesystem::path` values are modelled as their `native()`
string; the package root is assumed to be a path without a trailing
separator and the configured names relative paths, so `operator/` is
concatenation with one inserted preferred separator `\`.

External OS calls (`CreateProcessW`, `ShellExecuteEx`, `WaitForSingleObject`,
`GetExitCodeProcess`, …) are modelled by an oracle structure `OS` fixing the
outcome of each call site, and the launcher is given as a function producing
the returned status together with the trace of observable actions
(`List Event`), in program order.
-/

namespace PsfLauncher

/-- Wide strings of the source, modelled as lists of characters. -/
abbrev Wstr := List Char

/-- The preferred path separator inserted by `std::filesystem::path::operator/`. -/
def sep : Char := '\\'

/-- Path append `packageRoot / name` (line 85 etc.): append with one inserted separator,
for a root without trailing separator and a relative `name`. -/
def joinPath (root name : Wstr) : Wstr := root ++ sep :: name

/-- Model of `path.filename().native()`: the part after the last separator. -/
def fileNameOf (s : Wstr) : Wstr := (s.reverse.takeWhile (fun c => c ≠ sep)).reverse

/-- Model of `path.parent_path().native()`: the part before the last separator
(empty when there is no separator). -/
def parentOf (s : Wstr) : Wstr := ((s.reverse.dropWhile (fun c => c ≠ sep)).drop 1).reverse

/-- Case-insensitive character comparison used by `iwstring_view`. -/
def ciEq (a b : Wstr) : Bool := a.map Char.toLower == b.map Char.toLower

/-- Source function `check_suffix_if` (main.cpp lines 22-30): length test plus case-insensitive
comparison of the trailing substring, as `iwstring_view::operator==` compares
case-insensitively. -/
def check_suffix_if (str suffix : Wstr) : Bool :=
  decide (suffix.length ≤ str.length) && ciEq (str.drop (str.length - suffix.length)) suffix

/-- The literal `L".exe"_isv` of line 125. -/
def dotExe : Wstr := ".exe".toList

/-- The two launch modes of the spec's `LaunchPlan`. -/
inductive Mode where
  | DirectProcess
  | ShellDispatch
deriving DecidableEq, Repr

/-- Mode selection (line 125): direct process creation iff the configured
executable name passes `check_suffix_if` against `L".exe"`. -/
def modeOf (exeName : Wstr) : Mode :=
  if check_suffix_if exeName dotExe then .DirectProcess else .ShellDispatch

/-- The `AppLaunchConfig` as read in lines 74-79: `executable` required (its string
value, possibly empty), `workingDirectory` and `arguments` optional. -/
structure AppConfig where
  executable : Wstr
  workingDirectory : Option Wstr
  arguments : Option Wstr
deriving DecidableEq, Repr

/-- Monitor configuration as read in lines 95-98: all four keys are looked up
with `try_get`, so each is an `Option` (a null pointer when absent). -/
structure MonitorConfig where
  executable : Option Wstr
  arguments : Option Wstr
  asadmin : Option Bool
  wait : Option Bool
deriving DecidableEq, Repr

/-- Outcome of a `WaitForSingleObject` call: `WAIT_OBJECT_0`, `WAIT_FAILED`
(with the subsequent `GetLastError` value), or any other wait result. -/
inductive WaitOutcome where
  | object0
  | failed (lastError : Nat)
  | other
deriving DecidableEq, Repr

/-- Oracle for the outcomes of the OS calls made by one launcher run; one
field per call site. `shellExitCode` is the actual exit code of the process
started by the main `ShellExecuteEx` — the source never queries it. -/
structure OS where
  createProcessMain : Bool
  createLastError : Nat
  mainWait : WaitOutcome
  getExitCode : Option Nat
  getExitLastError : Nat
  shellMain : Bool
  shellLastError : Nat
  shellHInstApp : Nat
  shellExitCode : Nat
  shellWait : WaitOutcome
  monShell : Bool
  monCreate : Bool
  monCreateLastError : Nat
deriving DecidableEq, Repr

/-- Tags for the distinct `Log` call sites of the source. -/
inductive LogMsg where
  | inLauncher          -- line 67
  | creatingMonitor     -- line 103
  | creatingProcess     -- line 131
  | shellLaunch         -- line 193
  | monElevationRequired  -- line 296
  | monCreateError      -- line 298
deriving DecidableEq, Repr

/-- Observable actions of one launcher run, in program order. -/
inductive Event where
  | log (m : LogMsg)
  | report                                          -- ::PSFReportError
  | monShellExec (file params : Wstr)               -- line 254 (verb "runas")
  | monCreateProcess (cmdLine : Wstr)               -- line 284
  | monWaitInfinite                                 -- lines 258, 303
  | monWaitInputIdle (ms : Nat)                     -- line 263
  | monSleep (ms : Nat)                             -- line 266
  | mainCreateProcess (appPath cmdLine : Wstr) (dir : Option Wstr)  -- line 134
  | mainShellExec (file params : Wstr) (dir : Option Wstr)          -- line 194
  | mainWaitInfinite                                -- lines 156, 208
deriving DecidableEq, Repr

/-- Result of a launcher run: the returned integer status, or the undefined
behaviour reached by dereferencing a null config pointer (line 103/104). -/
inductive LRes where
  | ret (code : Nat)
  | nullDeref
deriving DecidableEq, Repr

/-- Code `ERROR_NOT_FOUND`, thrown at line 71 when no app config matches. -/
def ERROR_NOT_FOUND : Nat := 1168

/-- Code `ERROR_INVALID_HANDLE`, returned for unexpected wait results. -/
def ERROR_INVALID_HANDLE : Nat := 6

/-- Code `ERROR_ELEVATION_REQUIRED`, tested at line 295. -/
def ERROR_ELEVATION_REQUIRED : Nat := 740

/-- The composed command line (line 88):
`L"\"" + exePath.filename().native() + L"\" " + exeArgString + L" " + args`,
where `exeArgString` is the configured arguments or `L""` (line 79). -/
def cmdLineOf (root : Wstr) (cfg : AppConfig) (hostArgs : Wstr) : Wstr :=
  '"' :: fileNameOf (joinPath root cfg.executable) ++ '"' :: ' ' ::
    cfg.arguments.getD [] ++ ' ' :: hostArgs

/-- The dead sanitised working-directory string `wd` of lines 107-122: when
`workingDirectory` is absent, the executable's parent path with its final
character removed and surrounded by quotes; when present, the joined path
with its final character removed.  (`resize(size()-1)` is modelled by
`dropLast`; the source would raise `length_error` on an empty string.) -/
def sanitizedWd (root : Wstr) (exeName : Wstr) (dirStr : Option Wstr) : Wstr :=
  match dirStr with
  | none => '"' :: (parentOf (joinPath root exeName)).dropLast ++ ['"']
  | some d => (joinPath root d).dropLast

/-- The directory argument actually passed to both OS launch primitives
(lines 141 and 189): `dirStr ? (packageRoot / dirStr).c_str() : nullptr`. -/
def dirArgOf (root : Wstr) (cfg : AppConfig) : Option Wstr :=
  cfg.workingDirectory.map (joinPath root)

/-- Lines 107-222 after the monitor block: working-directory fix-up (dead,
see `sanitizedWd`), then branch on `check_suffix_if` into direct process
creation (lines 126-173) or shell dispatch (lines 175-221). -/
def mainStage (os : OS) (root : Wstr) (cfg : AppConfig) (hostArgs : Wstr) :
    LRes × List Event :=
  let exePath := joinPath root cfg.executable
  let cmdLine := cmdLineOf root cfg hostArgs
  let dirArg := dirArgOf root cfg
  if check_suffix_if cfg.executable dotExe then
    let e1 := [.log .creatingProcess, .mainCreateProcess exePath cmdLine dirArg]
    if os.createProcessMain then
      let e2 := e1 ++ [Event.mainWaitInfinite]
      match os.mainWait with
      | .object0 =>
        match os.getExitCode with
        | some c => (.ret c, e2)
        | none => (.ret os.getExitLastError, e2)
      | .failed e => (.ret e, e2)
      | .other => (.ret ERROR_INVALID_HANDLE, e2)
    else
      (.ret os.createLastError, e1 ++ [Event.report])
  else
    let e1 := [.log .shellLaunch,
               .mainShellExec (joinPath root cfg.executable) (cfg.arguments.getD []) dirArg]
    if os.shellMain then
      let e2 := e1 ++ [Event.mainWaitInfinite]
      match os.shellWait with
      | .object0 =>
        if 32 < os.shellHInstApp then (.ret 0, e2) else (.ret os.shellHInstApp, e2)
      | .failed e => (.ret e, e2)
      | .other => (.ret ERROR_INVALID_HANDLE, e2)
    else
      (.ret os.shellLastError, e1 ++ [Event.report])

/-- The monitor block (lines 90-105) together with `LaunchMonitorInBackground`
(lines 232-306).  `Except.error` is the null-pointer dereference reached when
`try_get("executable")` (dereferenced at line 103) or `try_get("arguments")`
(dereferenced at line 104) returned null, carrying the events emitted before
the crash; `Except.ok` carries the monitor step's events. -/
def monitorStage (os : OS) (root : Wstr) (m : MonitorConfig) :
    Except (List Event) (List Event) :=
  let asadmin := m.asadmin.getD false
  let wait := m.wait.getD false
  match m.executable with
  | none => .error []
  | some me =>
    match m.arguments with
    | none => .error [.log .creatingMonitor]
    | some ma =>
      let cmd := '"' :: joinPath root me ++ ['"']
      let e0 : List Event := [.log .creatingMonitor]
      if asadmin then
        let e1 := e0 ++ [Event.monShellExec cmd ma]
        if os.monShell then
          if wait then .ok (e1 ++ [Event.monWaitInfinite])
          else .ok (e1 ++ [Event.monWaitInputIdle 1000, Event.monSleep 5000])
        else
          -- failure branch, lines 269-272: the Log call is commented out
          .ok e1
      else
        let cmdarg := cmd ++ ' ' :: ma
        let e1 := e0 ++ [Event.monCreateProcess cmdarg]
        if os.monCreate then
          if wait then .ok (e1 ++ [Event.monWaitInfinite]) else .ok e1
        else
          if os.monCreateLastError = ERROR_ELEVATION_REQUIRED then
            .ok (e1 ++ [Event.log .monElevationRequired])
          else
            .ok (e1 ++ [Event.log .monCreateError])

/-- Source function `launcher_main` (lines 65-229).  `cfg? = none` models
`PSFQueryCurrentAppLaunchConfig` finding no match: the `throw_win32`
of line 71 is caught at line 224, reported, and converted to
`ERROR_NOT_FOUND`.  `mon` models the `PSFQueryAppMonitorConfig` result. -/
def launcher (os : OS) (root : Wstr) (cfg? : Option AppConfig)
    (mon : Option MonitorConfig) (hostArgs : Wstr) : LRes × List Event :=
  match cfg? with
  | none => (.ret ERROR_NOT_FOUND, [.log .inLauncher, .report])
  | some cfg =>
    match mon with
    | none =>
      let r := mainStage os root cfg hostArgs
      (r.1, .log .inLauncher :: r.2)
    | some m =>
      match monitorStage os root m with
      | .error evts => (.nullDeref, .log .inLauncher :: evts)
      | .ok evts =>
        let r := mainStage os root cfg hostArgs
        (r.1, .log .inLauncher :: evts ++ r.2)

/-- The directory argument recorded in a launch event, `none` for others. -/
def launchDirOf : Event → Option (Option Wstr)
  | .mainCreateProcess _ _ d => some d
  | .mainShellExec _ _ d => some d
  | _ => none

/-! ### Concrete inputs used as witnesses and counterexamples -/

/-- A sample package root. -/
def rootC : Wstr := "C:\\pkg".toList

/-- Config with an `.exe` executable and nothing else. -/
def cfgExe : AppConfig := ⟨"app.exe".toList, none, none⟩

/-- Config with a non-`.exe` executable (file-type-association launch). -/
def cfgTxt : AppConfig := ⟨"doc.txt".toList, none, none⟩

/-- Config whose `executable` value is the empty string. -/
def cfgEmpty : AppConfig := ⟨[], none, none⟩

/-- An oracle on which every OS call succeeds. -/
def osOk : OS :=
  { createProcessMain := true, createLastError := 0, mainWait := .object0,
    getExitCode := some 0, getExitLastError := 0,
    shellMain := true, shellLastError := 0, shellHInstApp := 33,
    shellExitCode := 0, shellWait := .object0,
    monShell := true, monCreate := true, monCreateLastError := 0 }

/-- Monitor requesting elevation without waiting. -/
def monElev : MonitorConfig := ⟨some "mon.exe".toList, some [], some true, some false⟩

/-- Monitor with only the executable configured (defaults elsewhere). -/
def monPlain : MonitorConfig := ⟨some "mon.exe".toList, some [], none, none⟩

/-- Monitor whose optional `arguments` key is absent. -/
def monNoArgs : MonitorConfig := ⟨some "mon.exe".toList, none, none, none⟩

/-- Oracle where shell-open succeeds with handle-like status 40 while the
launched process actually exits with code 7. -/
def osC1 : OS := { osOk with shellHInstApp := 40, shellExitCode := 7 }

/-- Oracle where the post-creation wait fails with last-error 6. -/
def osWaitFail : OS := { osOk with mainWait := .failed 6 }

/-- Oracle where the monitor's elevated shell launch fails. -/
def osMonElevFail : OS := { osOk with monShell := false }

/-- Oracle where the monitor's non-elevated process creation fails with an
error other than elevation-required. -/
def osMonPlainFail : OS := { osOk with monCreate := false, monCreateLastError := 5 }

/-! ### Helper lemmas -/

theorem takeWhile_append_cons (p : Char → Bool) (c : Char) (hc : p c = false) :
    ∀ (l r : List Char), (l ++ c :: r).takeWhile p = l.takeWhile p
  | [], r => by simp [List.takeWhile_cons, hc]
  | a :: l, r => by
    simp only [List.cons_append, List.takeWhile_cons]
    cases h : p a
    · rfl
    · rw [takeWhile_append_cons p c hc l r]

/-- Appending a relative name to a root never changes the filename part:
the inserted separator shields the root. -/
theorem fileNameOf_joinPath (root exe : Wstr) :
    fileNameOf (joinPath root exe) = fileNameOf exe := by
  unfold fileNameOf joinPath
  rw [List.reverse_append, List.reverse_cons, List.append_assoc, List.singleton_append,
    takeWhile_append_cons _ sep (by simp)]

/-- Lemma: `check_suffix_if` decides exactly case-insensitive suffixhood. -/
theorem check_suffix_iff (str suffix : Wstr) :
    check_suffix_if str suffix = true ↔
      (suffix.map Char.toLower) <:+ (str.map Char.toLower) := by
  unfold check_suffix_if ciEq
  rw [Bool.and_eq_true, decide_eq_true_eq, beq_iff_eq]
  constructor
  · rintro ⟨hlen, heq⟩
    rw [List.suffix_iff_eq_drop, List.length_map, List.length_map, ← List.map_drop]
    exact heq.symm
  · intro h
    have hlen := h.length_le
    simp only [List.length_map] at hlen
    refine ⟨hlen, ?_⟩
    rw [List.suffix_iff_eq_drop, List.length_map, List.length_map, ← List.map_drop] at h
    exact h.symm

/-! ### Claims -/

/-- C3: for every configuration, the launch mode is DirectProcess if and only
if the configured executable name ends, case-insensitively, in `".exe"`;
otherwise the launch mode is ShellDispatch. -/
theorem c3_mode_direct_iff_ci_exe_suffix (cfg : AppConfig) :
    (modeOf cfg.executable = .DirectProcess ↔
      (dotExe.map Char.toLower) <:+ (cfg.executable.map Char.toLower)) ∧
    (modeOf cfg.executable = .ShellDispatch ↔
      ¬ (dotExe.map Char.toLower) <:+ (cfg.executable.map Char.toLower)) := by
  unfold modeOf
  rw [← check_suffix_iff]
  by_cases h : check_suffix_if cfg.executable dotExe <;> simp [h]

/-- C4: for every configuration and host-supplied trailing argument text, the
composed command line is exactly the quoted executable filename (not the full
path), a space, the configured arguments (empty if absent), a space, and the
host-supplied trailing arguments. -/
theorem c4_cmdLine_composition (root : Wstr) (cfg : AppConfig) (hostArgs : Wstr) :
    cmdLineOf root cfg hostArgs =
      '"' :: fileNameOf cfg.executable ++ '"' :: ' ' ::
        cfg.arguments.getD [] ++ ' ' :: hostArgs := by
  unfold cmdLineOf
  rw [fileNameOf_joinPath]

/-- C9: for every launch with a monitor configured, the optional `executable`
and `arguments` lookups are dereferenced unguarded (lines 103-104), so a
monitor configuration lacking either field reaches a null-pointer dereference
instead of any launch: the run produces no monitor launch, no main launch,
only the log events emitted before the crash. -/
theorem c9_monitor_null_deref (os : OS) (root : Wstr) (cfg : AppConfig)
    (m : MonitorConfig) (hostArgs : Wstr)
    (h : m.arguments = none ∨ m.executable = none) :
    (launcher os root (some cfg) (some m) hostArgs).1 = .nullDeref ∧
    ∀ e ∈ (launcher os root (some cfg) (some m) hostArgs).2, ∃ t, e = Event.log t := by
  unfold launcher monitorStage
  rcases hex : m.executable with _ | me
  · simp [hex]
  · rcases har : m.arguments with _ | ma
    · simp [hex, har]
    · rcases h with h | h
      · rw [har] at h; exact absurd h (by simp)
      · rw [hex] at h; exact absurd h (by simp)

/-- C9 witness: the null dereference at a concrete monitor lacking
`arguments`. -/
theorem c9_witness :
    (monNoArgs.arguments = none ∨ monNoArgs.executable = none) ∧
    ((launcher osOk rootC (some cfgExe) (some monNoArgs) []).1 = .nullDeref ∧
     ∀ e ∈ (launcher osOk rootC (some cfgExe) (some monNoArgs) []).2,
       ∃ t, e = Event.log t) :=
  ⟨Or.inl rfl,
   c9_monitor_null_deref osOk rootC cfgExe monNoArgs [] (Or.inl rfl)⟩

/-- C10: the sanitised working-directory string is dead — every run passes
exactly one directory argument to an OS launch primitive, and that argument
is the unmodified join of the package root with the configured value
(`none` when `workingDirectory` is absent); it is never the sanitised
string. -/
theorem c10_sanitizedWd_never_passed (os : OS) (root : Wstr) (cfg : AppConfig)
    (hostArgs : Wstr) :
    (mainStage os root cfg hostArgs).2.filterMap launchDirOf = [dirArgOf root cfg] ∧
    dirArgOf root cfg ≠ some (sanitizedWd root cfg.executable cfg.workingDirectory) := by
  constructor
  · unfold mainStage
    by_cases h : check_suffix_if cfg.executable dotExe <;>
      cases hc : os.createProcessMain <;> cases hs : os.shellMain <;>
      cases hm : os.mainWait <;> cases hw : os.shellWait <;>
      cases hg : os.getExitCode <;>
      by_cases hh : 32 < os.shellHInstApp <;>
      simp [h, hc, hs, hh, launchDirOf]
  · rcases hd : cfg.workingDirectory with _ | d
    · simp [dirArgOf, hd]
    · intro hcontra
      simp only [dirArgOf, hd, sanitizedWd] at hcontra
      have h2 : joinPath root d = (joinPath root d).dropLast := by
        simpa using hcontra
      have hlen := congrArg List.length h2
      rw [List.length_dropLast] at hlen
      simp only [joinPath, List.length_append, List.length_cons] at hlen
      omega

/-- C7: an elevated no-wait monitor that launches successfully yields exactly
a 1000 ms input-idle wait then a fixed 5000 ms sleep, after which the main
stage runs unchanged — the whole monitor step precedes every main-launch
event, and its outcome does not influence the main result. -/
theorem c7_elevated_nowait_monitor (os : OS) (root : Wstr) (cfg : AppConfig)
    (m : MonitorConfig) (hostArgs : Wstr) (me ma : Wstr)
    (hex : m.executable = some me) (har : m.arguments = some ma)
    (hadm : m.asadmin.getD false = true) (hw : m.wait.getD false = false)
    (hok : os.monShell = true) :
    launcher os root (some cfg) (some m) hostArgs =
      ((mainStage os root cfg hostArgs).1,
        [.log .inLauncher, .log .creatingMonitor,
         .monShellExec ('"' :: joinPath root me ++ ['"']) ma,
         .monWaitInputIdle 1000, .monSleep 5000] ++
          (mainStage os root cfg hostArgs).2) := by
  have hstage : monitorStage os root m =
      .ok [.log .creatingMonitor,
           .monShellExec ('"' :: joinPath root me ++ ['"']) ma,
           .monWaitInputIdle 1000, .monSleep 5000] := by
    unfold monitorStage
    rw [hex, har]
    simp [hadm, hw, hok]
  simp [launcher, hstage]

/-- C7 witness: the elevated no-wait monitor trace at a concrete input. -/
theorem c7_witness :
    monElev.executable = some "mon.exe".toList ∧
    monElev.arguments = some [] ∧
    monElev.asadmin.getD false = true ∧
    monElev.wait.getD false = false ∧
    osOk.monShell = true ∧
    launcher osOk rootC (some cfgExe) (some monElev) [] =
      ((mainStage osOk rootC cfgExe []).1,
        [.log .inLauncher, .log .creatingMonitor,
         .monShellExec ('"' :: joinPath rootC "mon.exe".toList ++ ['"']) [],
         .monWaitInputIdle 1000, .monSleep 5000] ++
          (mainStage osOk rootC cfgExe []).2) :=
  ⟨rfl, rfl, rfl, rfl, rfl,
   c7_elevated_nowait_monitor osOk rootC cfgExe monElev [] "mon.exe".toList []
     rfl rfl rfl rfl rfl⟩

/-- C1 counterexample: shell-open succeeds with handle-like status 40 (> 32)
while the launched process's true exit code is 7; the code returns 0, not the
exit code, so the claim as stated fails at this input (its status-40 branch). -/
theorem c1_counterexample :
    ¬ ((32 < osC1.shellHInstApp →
          Event.mainWaitInfinite ∈ (mainStage osC1 rootC cfgTxt []).2 ∧
          (mainStage osC1 rootC cfgTxt []).1 = .ret osC1.shellExitCode) ∧
       (osC1.shellHInstApp ≤ 32 →
          (mainStage osC1 rootC cfgTxt []).1 = .ret osC1.shellHInstApp ∧
          Event.mainWaitInfinite ∉ (mainStage osC1 rootC cfgTxt []).2)) := by
  decide

/-- C1 amended: when shell-open succeeds the Invoker always waits on the
process handle first; on a successful wait it returns 0 when the handle-like
status exceeds 32 (not the process's true exit code), and the status itself
as failure when it is 32 or less (still after waiting). -/
theorem c1_amended_shell_always_waits (os : OS) (root : Wstr) (cfg : AppConfig)
    (hostArgs : Wstr) (hmode : modeOf cfg.executable = .ShellDispatch)
    (hok : os.shellMain = true) :
    Event.mainWaitInfinite ∈ (mainStage os root cfg hostArgs).2 ∧
    (os.shellWait = .object0 →
      (mainStage os root cfg hostArgs).1 =
        if 32 < os.shellHInstApp then .ret 0 else .ret os.shellHInstApp) := by
  have h : check_suffix_if cfg.executable dotExe = false := by
    by_contra hc
    simp only [Bool.not_eq_false] at hc
    simp [modeOf, hc] at hmode
  unfold mainStage
  cases hw : os.shellWait <;>
    by_cases hh : 32 < os.shellHInstApp <;>
    simp [h, hok, hw, hh]

/-- C1 amended witness: the wait and the status-based return at a concrete
shell launch. -/
theorem c1_amended_witness :
    modeOf cfgTxt.executable = .ShellDispatch ∧ osC1.shellMain = true ∧
    (Event.mainWaitInfinite ∈ (mainStage osC1 rootC cfgTxt []).2 ∧
     (osC1.shellWait = .object0 →
       (mainStage osC1 rootC cfgTxt []).1 =
         if 32 < osC1.shellHInstApp then .ret 0 else .ret osC1.shellHInstApp)) :=
  ⟨by decide, rfl,
   c1_amended_shell_always_waits osC1 rootC cfgTxt [] (by decide) rfl⟩

/-- C2 (code-bug evidence): with `workingDirectory` absent the run's only
directory argument handed to an OS launch primitive is null (the process
inherits the launcher's directory), while the executable's parent directory
is `C:\pkg`; the string computed and discarded at lines 107-115 is moreover
`"C:\pk"` in quotes — its `resize` removed a real character, there being no
trailing separator to strip. -/
theorem c2_code_behavior :
    (mainStage osOk rootC cfgExe []).2.filterMap launchDirOf = [none] ∧
    parentOf (joinPath rootC cfgExe.executable) = "C:\\pkg".toList ∧
    sanitizedWd rootC cfgExe.executable cfgExe.workingDirectory =
      '"' :: "C:\\pk".toList ++ ['"'] := by
  decide

/-- C5 counterexample: process creation succeeds, the completion wait fails
with last-error 6, the code returns 6 — a failure path — yet no report is
forwarded to the Error Reporter. -/
theorem c5_counterexample :
    ¬ (((mainStage osWaitFail rootC cfgExe []).1 = .ret 6 ∧
        osWaitFail.mainWait = .failed 6) →
       Event.report ∈ (mainStage osWaitFail rootC cfgExe []).2) := by
  decide

/-- C5 amended: a formatted failure string reaches the Error Reporter exactly
when the launch primitive itself fails (direct creation failure or
shell-dispatch failure); wait failures and exit-code-query failures return
their OS code without reporting. -/
theorem c5_amended_report_iff_primitive_failure (os : OS) (root : Wstr)
    (cfg : AppConfig) (hostArgs : Wstr) :
    Event.report ∈ (mainStage os root cfg hostArgs).2 ↔
      ((check_suffix_if cfg.executable dotExe = true ∧ os.createProcessMain = false) ∨
       (check_suffix_if cfg.executable dotExe = false ∧ os.shellMain = false)) := by
  unfold mainStage
  by_cases h : check_suffix_if cfg.executable dotExe <;>
    cases hc : os.createProcessMain <;> cases hs : os.shellMain <;>
    cases hm : os.mainWait <;> cases hw : os.shellWait <;>
    cases hg : os.getExitCode <;>
    by_cases hh : 32 < os.shellHInstApp <;>
    simp [h, hc, hs, hh]

/-- C6 counterexample: the monitor's elevated launch fails, yet the run
contains neither of the two monitor-failure log messages of the source
(the elevated branch's log call, line 271, is commented out), so the failure
is not "only logged" — it is not logged at all. -/
theorem c6_counterexample :
    ¬ (osMonElevFail.monShell = false →
        Event.log .monElevationRequired ∈
          (launcher osMonElevFail rootC (some cfgExe) (some monElev) []).2 ∨
        Event.log .monCreateError ∈
          (launcher osMonElevFail rootC (some cfgExe) (some monElev) []).2) := by
  decide

/-- C6 amended: for any monitor whose `executable` and `arguments` fields are
present, whatever the monitor launch's outcome, the Orchestrator never aborts
the main launch and the main result and main-stage events are identical to a
run with no monitor configured; a non-elevated creation failure is logged
(an elevated launch failure is silently ignored). -/
theorem c6_amended_monitor_isolated (os : OS) (root : Wstr) (cfg : AppConfig)
    (m : MonitorConfig) (hostArgs : Wstr) (me ma : Wstr)
    (hex : m.executable = some me) (har : m.arguments = some ma) :
    ∃ monEvts,
      monitorStage os root m = .ok monEvts ∧
      launcher os root (some cfg) (some m) hostArgs =
        ((mainStage os root cfg hostArgs).1,
          .log .inLauncher :: (monEvts ++ (mainStage os root cfg hostArgs).2)) ∧
      launcher os root (some cfg) none hostArgs =
        ((mainStage os root cfg hostArgs).1,
          .log .inLauncher :: (mainStage os root cfg hostArgs).2) ∧
      (m.asadmin.getD false = false → os.monCreate = false →
        (Event.log .monElevationRequired ∈ monEvts ∨
         Event.log .monCreateError ∈ monEvts)) := by
  have hstage : ∃ monEvts, monitorStage os root m = .ok monEvts ∧
      (m.asadmin.getD false = false → os.monCreate = false →
        (Event.log .monElevationRequired ∈ monEvts ∨
         Event.log .monCreateError ∈ monEvts)) := by
    unfold monitorStage
    rw [hex, har]
    cases ha : m.asadmin.getD false <;> cases hwt : m.wait.getD false <;>
      cases hms : os.monShell <;> cases hmc : os.monCreate <;>
      by_cases hle : os.monCreateLastError = ERROR_ELEVATION_REQUIRED <;>
      simp [ha, hwt, hms, hmc, hle]
  rcases hstage with ⟨monEvts, hst, hlog⟩
  exact ⟨monEvts, hst, by simp [launcher, hst], by simp [launcher], hlog⟩

/-- C6 amended witness: a concrete failing non-elevated monitor leaves the
main stage untouched and logs the failure. -/
theorem c6_amended_witness :
    monPlain.executable = some "mon.exe".toList ∧
    monPlain.arguments = some [] ∧
    (∃ monEvts,
      monitorStage osMonPlainFail rootC monPlain = .ok monEvts ∧
      launcher osMonPlainFail rootC (some cfgExe) (some monPlain) [] =
        ((mainStage osMonPlainFail rootC cfgExe []).1,
          .log .inLauncher :: (monEvts ++ (mainStage osMonPlainFail rootC cfgExe []).2)) ∧
      launcher osMonPlainFail rootC (some cfgExe) none [] =
        ((mainStage osMonPlainFail rootC cfgExe []).1,
          .log .inLauncher :: (mainStage osMonPlainFail rootC cfgExe []).2) ∧
      (monPlain.asadmin.getD false = false → osMonPlainFail.monCreate = false →
        (Event.log .monElevationRequired ∈ monEvts ∨
         Event.log .monCreateError ∈ monEvts))) :=
  ⟨rfl, rfl,
   c6_amended_monitor_isolated osMonPlainFail rootC cfgExe monPlain []
     "mon.exe".toList [] rfl rfl⟩

/-- C8 counterexample: with an empty `executable` string the launcher does
not fail with the not-found configuration error and does attempt a launch —
the run contains a shell-dispatch attempt and returns the shell result. -/
theorem c8_counterexample :
    ¬ ((launcher osOk rootC (some cfgEmpty) none []).1 = .ret ERROR_NOT_FOUND ∧
       ∀ e ∈ (launcher osOk rootC (some cfgEmpty) none []).2,
         launchDirOf e = none) := by
  decide

/-- C8 amended: only the absence of a matching app-launch configuration fails
with the not-found code (after reporting) without attempting a launch; an
empty `executable` string is not validated — it selects ShellDispatch and the
shell launch is attempted on the bare package root join. -/
theorem c8_amended_no_empty_check (os : OS) (root : Wstr)
    (mon : Option MonitorConfig) (hostArgs : Wstr) (cfg : AppConfig)
    (hempty : cfg.executable = []) :
    launcher os root none mon hostArgs =
      (.ret ERROR_NOT_FOUND, [.log .inLauncher, .report]) ∧
    modeOf cfg.executable = .ShellDispatch ∧
    Event.mainShellExec (joinPath root cfg.executable) (cfg.arguments.getD [])
        (dirArgOf root cfg) ∈ (mainStage os root cfg hostArgs).2 := by
  refine ⟨rfl, ?_, ?_⟩
  · rw [hempty]; decide
  · have h : check_suffix_if cfg.executable dotExe = false := by
      rw [hempty]; decide
    unfold mainStage
    cases hs : os.shellMain <;> cases hw : os.shellWait <;>
      by_cases hh : 32 < os.shellHInstApp <;>
      simp [h, hs, hh]

/-- C8 amended witness: the missing-config failure and the empty-executable
shell attempt at concrete inputs. -/
theorem c8_amended_witness :
    cfgEmpty.executable = [] ∧
    (launcher osOk rootC none none [] =
       (.ret ERROR_NOT_FOUND, [.log .inLauncher, .report]) ∧
     modeOf cfgEmpty.executable = .ShellDispatch ∧
     Event.mainShellExec (joinPath rootC cfgEmpty.executable)
         (cfgEmpty.arguments.getD []) (dirArgOf rootC cfgEmpty) ∈
       (mainStage osOk rootC cfgEmpty []).2) :=
  ⟨rfl, c8_amended_no_empty_check osOk rootC none [] cfgEmpty rfl⟩

end PsfLauncher
